import Mathlib

/-!
Verification of the investment-calculator analytics dashboard
(`src/dashboard.py`): data model, filter engine, retrying store client,
rate provider, currency normalizer and aggregation layer, embedded as
executable Lean definitions, with the specified properties proved below.

Conventions of the embedding:
* SQL / pandas numeric columns are `ℚ` (amounts, rates) or `ℤ` (ids,
  counts, kinds); nullable columns are `Option`-typed, and a pandas
  comparison of a null (`NaN`) value is `false`, as in the source.
* Timestamps are seconds since the epoch (`ℤ`); the derived columns
  `DATE(created_at)`, `EXTRACT(hour ...)`, `EXTRACT(dow ...)` of the
  fixed query become the functions `date_only`, `hour_only`,
  `day_of_week` (PostgreSQL `dow`: Sunday = 0, and day 0 of the epoch
  was a Thursday = 4).
* Python exceptions become `Except` values; `st.stop()` after an error
  message becomes a dedicated result constructor.
-/

namespace Dashboard

/-- One row of `investment_calculations`, with the 24 selected base
columns of the fixed query in `load_data` (the three derived columns are
computed from `created_at` by the functions below). -/
structure Record where
  id : ℤ
  client_id : ℤ
  created_at : ℤ
  user_ip : String
  user_agent : String
  calculation_type : ℤ
  initial_sum : ℚ
  target_sum : Option ℚ
  period : Option ℤ
  period_unit : String
  interest_rate : ℚ
  reinvest_enabled : Bool
  reinvest_period : Option ℤ
  add_period : Option ℤ
  add_sum : Option ℚ
  currency : String
  final_amount : ℚ
  total_profit : ℚ
  total_contributions : ℚ
  effective_rate : ℚ
  time_months : Option ℚ
  time_formatted : String
  api_response_time_ms : ℚ
  calculation_version : String
deriving DecidableEq, Repr

/-- Derived column `DATE(created_at) as date_only`: the day number of the
timestamp (floor division, so it is exact also before the epoch). -/
def date_only (r : Record) : ℤ := Int.fdiv r.created_at 86400

/-- Derived column `EXTRACT(hour FROM created_at) as hour_only`. -/
def hour_only (r : Record) : ℤ := r.created_at.emod 86400 / 3600

/-- Derived column `EXTRACT(dow FROM created_at) as day_of_week`
(PostgreSQL convention: Sunday = 0). -/
def day_of_week (r : Record) : ℤ := (date_only r + 4).emod 7

/-- The sidebar filter state of `main` (lines 256-401): each widget
contributes one predicate of the conjunction built at lines 404-441.
`date_range` is `none` when the date widget does not hold a two-element
range, `period_range` / `target_sum_range` are `none` when the
corresponding slider is not shown, and `reinvest_values` is the list of
selected reinvestment flags (no condition is added when it is empty). -/
structure FilterSpec where
  date_range : Option (ℤ × ℤ)
  currencies : List String
  selected_type_numbers : List ℤ
  initial_sum_range : ℚ × ℚ
  interest_rate_range : ℚ × ℚ
  period_range : Option (ℤ × ℤ)
  target_sum_range : Option (ℚ × ℚ)
  reinvest_values : List Bool
  final_amount_range : ℚ × ℚ
  profit_range : ℚ × ℚ
deriving DecidableEq, Repr

/-- `df['currency'].isin(currencies)` (line 405). -/
def currency_cond (S : FilterSpec) (r : Record) : Bool :=
  S.currencies.contains r.currency

/-- `df['calculation_type'].isin(selected_type_numbers)` (line 406). -/
def calc_type_cond (S : FilterSpec) (r : Record) : Bool :=
  S.selected_type_numbers.contains r.calculation_type

/-- `(df['initial_sum'] >= lo) & (df['initial_sum'] <= hi)` (lines 407-408). -/
def initial_sum_cond (S : FilterSpec) (r : Record) : Bool :=
  decide (S.initial_sum_range.1 ≤ r.initial_sum) &&
    decide (r.initial_sum ≤ S.initial_sum_range.2)

/-- `(df['interest_rate'] >= lo) & (df['interest_rate'] <= hi)` (lines 409-410). -/
def interest_rate_cond (S : FilterSpec) (r : Record) : Bool :=
  decide (S.interest_rate_range.1 ≤ r.interest_rate) &&
    decide (r.interest_rate ≤ S.interest_rate_range.2)

/-- `(df['final_amount'] >= lo) & (df['final_amount'] <= hi)` (lines 411-412). -/
def final_amount_cond (S : FilterSpec) (r : Record) : Bool :=
  decide (S.final_amount_range.1 ≤ r.final_amount) &&
    decide (r.final_amount ≤ S.final_amount_range.2)

/-- `(df['total_profit'] >= lo) & (df['total_profit'] <= hi)` (lines 413-414). -/
def profit_cond (S : FilterSpec) (r : Record) : Bool :=
  decide (S.profit_range.1 ≤ r.total_profit) &&
    decide (r.total_profit ≤ S.profit_range.2)

/-- `(df['date_only'].dt.date >= d0) & (df['date_only'].dt.date <= d1)`,
added only when the widget holds a two-element range (lines 418-422). -/
def date_cond (S : FilterSpec) (r : Record) : Bool :=
  match S.date_range with
  | some (d0, d1) => decide (d0 ≤ date_only r) && decide (date_only r ≤ d1)
  | none => true

/-- `(period >= lo) & (period <= hi)` on a nullable column: a null is
outside every range, as in pandas. -/
def period_in_range (lo hi : ℤ) : Option ℤ → Bool
  | some p => decide (lo ≤ p) && decide (p ≤ hi)
  | none => false

/-- `(target_sum >= lo) & (target_sum <= hi)` on a nullable column. -/
def target_in_range (lo hi : ℚ) : Option ℚ → Bool
  | some t => decide (lo ≤ t) && decide (t ≤ hi)
  | none => false

/-- `(df['calculation_type'] != 1) | ((df['period'] >= lo) & (df['period'] <= hi))`,
added only when the period slider is shown (lines 425-429). -/
def period_cond (S : FilterSpec) (r : Record) : Bool :=
  match S.period_range with
  | some (lo, hi) => (r.calculation_type != 1) || period_in_range lo hi r.period
  | none => true

/-- `(df['calculation_type'] != 4) | ((df['target_sum'] >= lo) & (df['target_sum'] <= hi))`,
added only when the target-sum slider is shown (lines 432-436). -/
def target_sum_cond (S : FilterSpec) (r : Record) : Bool :=
  match S.target_sum_range with
  | some (lo, hi) => (r.calculation_type != 4) || target_in_range lo hi r.target_sum
  | none => true

/-- `df['reinvest_enabled'].isin(reinvest_values)`, added only when
`reinvest_values` is non-empty (lines 439-440). -/
def reinvest_cond (S : FilterSpec) (r : Record) : Bool :=
  if S.reinvest_values.isEmpty then true
  else S.reinvest_values.contains r.reinvest_enabled

/-- A record passes the whole filter iff it passes every condition of
the `conditions` list (lines 404-441). -/
def satisfies (S : FilterSpec) (r : Record) : Bool :=
  currency_cond S r && calc_type_cond S r && initial_sum_cond S r &&
    interest_rate_cond S r && final_amount_cond S r && profit_cond S r &&
    date_cond S r && period_cond S r && target_sum_cond S r &&
    reinvest_cond S r

/-- The filter engine: the successive boolean-mask applications
`df_filtered = df_filtered[condition]` (lines 443-445) retain exactly
the rows passing every condition, in their original order. -/
def apply (R : List Record) (S : FilterSpec) : List Record :=
  R.filter (satisfies S)

/-! ## Aggregation layer -/

/-- `Series.median()` as used on the filtered numeric columns: sort the
values and average the two central elements (for an odd length both
indices point at the same middle element, so this is the middle value). -/
def median (xs : List ℚ) : ℚ :=
  let s := xs.insertionSort (· ≤ ·)
  (s.getD ((xs.length - 1) / 2) 0 + s.getD (xs.length / 2) 0) / 2

/-- `Series.mean()`. -/
def mean (xs : List ℚ) : ℚ := xs.sum / xs.length

/-- `Series.nunique()`: the number of distinct values. -/
def nunique (xs : List ℤ) : ℕ := xs.dedup.length

/-- One cell of the activity pivot (lines 937-943): the number of
filtered records falling on the given hour of day and day of week. -/
def cell_count (df : List Record) (h d : ℤ) : ℕ :=
  df.countP (fun r => hour_only r == h && day_of_week r == d)

/-- The row axis of the pivot: the hours observed in the data, distinct
and in ascending order, as `pivot_table` indexes them. -/
def pivot_hours (df : List Record) : List ℤ :=
  ((df.map hour_only).dedup).insertionSort (· ≤ ·)

/-- The column axis of the pivot: the observed days of week. -/
def pivot_days (df : List Record) : List ℤ :=
  ((df.map day_of_week).dedup).insertionSort (· ≤ ·)

/-- `df_filtered.pivot_table(values='id', index='hour_only',
columns='day_of_week', aggfunc='count', fill_value=0)` (lines 937-943):
a matrix of counts over observed hours x observed days, a combination
with no record contributing a zero cell. -/
def activity_pivot (df : List Record) : List (List ℕ) :=
  (pivot_hours df).map (fun h => (pivot_days df).map (fun d => cell_count df h d))

/-- The sum of all cells of the activity pivot. -/
def pivot_total (df : List Record) : ℕ :=
  ((activity_pivot df).map List.sum).sum

/-- One row of the `top_clients` table (lines 965-970): per-client count
of calculations, mean initial sum, mean final amount (pandas rounds the
means to integers for display) and most recent timestamp. -/
structure ClientStats where
  client_id : ℤ
  calc_count : ℕ
  mean_initial : ℤ
  mean_final : ℤ
  last_calc : ℤ
deriving DecidableEq, Repr

/-- The aggregate row of one client group of `groupby('client_id')`. -/
def client_stats (df : List Record) (c : ℤ) : ClientStats :=
  let grp := df.filter (fun r => r.client_id == c)
  { client_id := c
    calc_count := grp.length
    mean_initial := round (mean (grp.map (·.initial_sum)))
    mean_final := round (mean (grp.map (·.final_amount)))
    last_calc := ((grp.map (·.created_at)).max?).getD 0 }

/-- Ordering of the top-clients table: by calculation count, descending. -/
def by_count_desc (a b : ClientStats) : Prop := b.calc_count ≤ a.calc_count

instance : DecidableRel by_count_desc := fun a b => Nat.decLe b.calc_count a.calc_count

/-- `groupby('client_id').agg(...).sort_values('id', ascending=False).head(10)`
(lines 965-970). -/
def top_clients (df : List Record) : List ClientStats :=
  ((((df.map (·.client_id)).dedup).insertionSort (· ≤ ·)).map
    (client_stats df)).insertionSort by_count_desc |>.take 10

/-- Count and distinct-client count per calculation kind
(`groupby('calculation_type')`, lines 620-623). -/
def calc_type_stats (df : List Record) : List (ℤ × ℕ × ℕ) :=
  (((df.map (·.calculation_type)).dedup).insertionSort (· ≤ ·)).map
    (fun t =>
      let grp := df.filter (fun r => r.calculation_type == t)
      (t, grp.length, nunique (grp.map (·.client_id))))

/-- The summary scalars, grouped tables and pivot that `main` computes
over the (possibly currency-normalized) filtered records once the
empty-result guard has passed (lines 536 onward). -/
structure Aggregates where
  total_calcs : ℕ
  unique_users : ℕ
  median_initial : ℚ
  median_rate : ℚ
  median_final : ℚ
  median_profit : ℚ
  total_invested : ℚ
  total_profit_sum : ℚ
  type_stats : List (ℤ × ℕ × ℕ)
  activity : List (List ℕ)
  top : List ClientStats
deriving DecidableEq, Repr

/-- The aggregation layer applied to a filtered record sequence. -/
def computeAggregates (df : List Record) : Aggregates :=
  { total_calcs := df.length
    unique_users := nunique (df.map (·.client_id))
    median_initial := median (df.map (·.initial_sum))
    median_rate := median (df.map (·.interest_rate))
    median_final := median (df.map (·.final_amount))
    median_profit := median (df.map (·.total_profit))
    total_invested := (df.map (·.initial_sum)).sum
    total_profit_sum := (df.map (·.total_profit)).sum
    type_stats := calc_type_stats df
    activity := activity_pivot df
    top := top_clients df }

/-! ## Rate provider and currency conversion -/

/-- A Python dict from currency code to per-unit rate, as an ordered
association list. -/
abbrev RateTable := List (String × ℚ)

/-- `rates[char_code] = rate`: overwrite the entry in place if the key
exists, append it otherwise (Python dict insertion order). -/
def dictSet : RateTable → String → ℚ → RateTable
  | [], k, v => [(k, v)]
  | p :: ps, k, v => if p.1 == k then (k, v) :: ps else p :: dictSet ps k v

/-- `rates.get(k, default)`. -/
def dictGet (d : RateTable) (k : String) (default : ℚ) : ℚ :=
  match d.find? (fun p => p.1 == k) with
  | some p => p.2
  | none => default

/-- `rates[k]` as an optional lookup (`None` when the key is absent). -/
def lookupRate (d : RateTable) (k : String) : Option ℚ :=
  (d.find? (fun p => p.1 == k)).map Prod.snd

/-- One `Valute` element of the CBR XML document, with its `CharCode`,
`Value` and `Nominal` fields already extracted and parsed; a response
whose elements cannot be extracted or parsed (missing child, malformed
decimal) raises inside the `try` block and is modelled by the fetch
outcome being an error. -/
structure Valute where
  char_code : String
  value : ℚ
  nominal : ℚ
deriving DecidableEq, Repr

/-- The parsing loop of `get_cbr_rates` (lines 95-102): starting from
`{'RUB': 1.0}`, store `value / nominal` for the USD and EUR elements; a
zero nominal raises (`ZeroDivisionError`), caught by the same handler. -/
def parseValutes : List Valute → RateTable → Except Unit RateTable
  | [], rates => .ok rates
  | v :: vs, rates =>
    if v.char_code == "USD" || v.char_code == "EUR" then
      if v.nominal = 0 then .error ()
      else parseValutes vs (dictSet rates v.char_code (v.value / v.nominal))
    else parseValutes vs rates

/-- The fallback table returned on any failure (line 109). -/
def fallback_rates : RateTable := [("RUB", 1), ("USD", 95), ("EUR", 105)]

/-- `get_cbr_rates` (lines 84-109): build the table from a successful
fetch, and on any exception (network error, parse error, zero nominal)
warn and return the fallback table. -/
def get_cbr_rates (fetch : Except Unit (List Valute)) : RateTable :=
  match fetch with
  | .error _ => fallback_rates
  | .ok vs =>
    match parseValutes vs [("RUB", 1)] with
    | .ok rates => rates
    | .error _ => fallback_rates

/-- `convert_to_rub` (lines 111-115). -/
def convert_to_rub (amount : ℚ) (currency : String) (rates : RateTable) : ℚ :=
  if currency == "RUB" then amount
  else amount * dictGet rates currency 1

/-! ## Currency normalizer (lines 516-534 of `main`) -/

/-- The per-row rewrite of the conversion block: the four monetary
columns are converted (an absent `add_sum` becomes `0`), every other
column is kept. -/
def normalizeRecord (rates : RateTable) (r : Record) : Record :=
  { r with
    initial_sum := convert_to_rub r.initial_sum r.currency rates
    final_amount := convert_to_rub r.final_amount r.currency rates
    total_profit := convert_to_rub r.total_profit r.currency rates
    add_sum := some (match r.add_sum with
      | some a => convert_to_rub a r.currency rates
      | none => 0) }

/-- The conversion block applied with a usable rate table: a copy of the
filtered frame with the four monetary columns reassigned. -/
def convert_block (rates : RateTable) (df_filtered : List Record) : List Record :=
  df_filtered.map (normalizeRecord rates)

/-- The conversion step of `main` (lines 517-534). The local variable
`rates` is modelled by an `Option RateTable`: `none` while it is still
unassigned, in which case evaluating a conversion lambda raises
`NameError` (modelled as `Except.error`); on an empty frame
`DataFrame.apply` never invokes the lambda. -/
def convertStep (convert_to_rubles : Bool) (ratesVar : Option RateTable)
    (df_filtered : List Record) : Except Unit (List Record) :=
  if convert_to_rubles then
    match ratesVar with
    | some rates => .ok (convert_block rates df_filtered)
    | none => if df_filtered.isEmpty then .ok df_filtered else .error ()
  else .ok df_filtered

/-- In `main`, the only assignment to the local `rates` is
`rates = get_cbr_rates()` at line 1045, in the sidebar section that runs
after the conversion block of lines 517-534; so at the point where the
conversion lambdas execute, `rates` is still unassigned. -/
def rates_at_conversion : Option RateTable := none

/-! ## The render pipeline of `main` -/

/-- The outcome of one render pass of `main`: stop with the no-data
message (line 239), stop with the no-matching-records message
(line 448), die on an uncaught exception, or reach the aggregation and
presentation sections with the aggregates of the (possibly converted)
filtered records. -/
inductive RenderResult where
  | noData
  | noMatching
  | crashed
  | rendered (agg : Aggregates)
deriving DecidableEq, Repr

/-- The filter/convert/aggregate pass of `main` (lines 234-534 and the
aggregate sections after them), over loaded records `df`, the sidebar
filter state `S` and the currency checkbox. -/
def render (df : List Record) (S : FilterSpec) (convert_to_rubles : Bool)
    (ratesVar : Option RateTable) : RenderResult :=
  if df.isEmpty then .noData
  else
    let df_filtered := apply df S
    if df_filtered.isEmpty then .noMatching
    else
      match convertStep convert_to_rubles ratesVar df_filtered with
      | .error _ => .crashed
      | .ok dfc => .rendered (computeAggregates dfc)

/-- One render pass of `main` as written: the conversion block runs with
`rates` still unassigned. -/
def main_render (df : List Record) (S : FilterSpec) (convert_to_rubles : Bool) :
    RenderResult :=
  render df S convert_to_rubles rates_at_conversion

/-! ## Store client with retry (`execute_query_with_retry`, lines 145-170) -/

/-- What one connection/query attempt does: succeed with a result set,
fail with a transient connection error (`psycopg2.OperationalError` or
`InterfaceError`), or fail with any other, non-transient error. -/
inductive AttemptOutcome where
  | success (df : List Record)
  | transient
  | fatal
deriving DecidableEq, Repr

/-- The outcome of `execute_query_with_retry`: a result set, the
`st.stop()` after the retry budget is exhausted (`DataUnavailable`), the
immediate `st.stop()` on a non-transient error, or the implicit `None`
when the loop body never runs. -/
inductive QueryResult where
  | ok (df : List Record)
  | dataUnavailable
  | fatalError
  | noResult
deriving DecidableEq, Repr

/-- The retry loop from a given attempt index: on a transient error the
loop continues while `attempt < max_retries - 1` and stops with an error
on the last attempt; a non-transient error stops immediately. Returns
the outcome together with the number of attempts actually made. -/
def retryFrom (outcomes : ℕ → AttemptOutcome) (max_retries : ℕ)
    (attempt : ℕ) : QueryResult × ℕ :=
  if attempt < max_retries then
    match outcomes attempt with
    | .success df => (.ok df, attempt + 1)
    | .fatal => (.fatalError, attempt + 1)
    | .transient =>
      if attempt < max_retries - 1 then retryFrom outcomes max_retries (attempt + 1)
      else (.dataUnavailable, attempt + 1)
  else (.noResult, attempt)
termination_by max_retries - attempt
decreasing_by omega

/-- `execute_query_with_retry(query, max_retries=3)`, with the behaviour
of the environment abstracted as the outcome of each attempt. -/
def execute_query_with_retry (outcomes : ℕ → AttemptOutcome)
    (max_retries : ℕ := 3) : QueryResult × ℕ :=
  retryFrom outcomes max_retries 0

/-! ## Concrete sample data (used by the witness theorems) -/

/-- A concrete "final amount" calculation: 09:00 of epoch day 0
(a Thursday, PostgreSQL dow 4). -/
def rec0 : Record :=
  { id := 1, client_id := 100, created_at := 32400,
    user_ip := "10.0.0.1", user_agent := "curl", calculation_type := 1,
    initial_sum := 1000, target_sum := none, period := some 12,
    period_unit := "m", interest_rate := 10, reinvest_enabled := true,
    reinvest_period := some 1, add_period := none, add_sum := none,
    currency := "RUB", final_amount := 2000, total_profit := 1000,
    total_contributions := 0, effective_rate := 10, time_months := none,
    time_formatted := "", api_response_time_ms := 12,
    calculation_version := "v1" }

/-- A concrete "time to goal" calculation: 14:00 of epoch day 1
(a Friday, PostgreSQL dow 5). -/
def rec1 : Record :=
  { id := 2, client_id := 200, created_at := 136800,
    user_ip := "10.0.0.2", user_agent := "firefox", calculation_type := 4,
    initial_sum := 5000, target_sum := some 900000, period := none,
    period_unit := "m", interest_rate := 8, reinvest_enabled := false,
    reinvest_period := none, add_period := some 1, add_sum := some 100,
    currency := "USD", final_amount := 900000, total_profit := 895000,
    total_contributions := 0, effective_rate := 8, time_months := some 60,
    time_formatted := "5 y", api_response_time_ms := 20,
    calculation_version := "v1" }

/-- A sidebar state whose every widget is at its widest setting: every
record of the samples passes it. -/
def spec_all : FilterSpec :=
  { date_range := none, currencies := ["RUB", "USD", "EUR"],
    selected_type_numbers := [1, 4], initial_sum_range := (0, 1000000000),
    interest_rate_range := (0, 100), period_range := none,
    target_sum_range := none, reinvest_values := [true, false],
    final_amount_range := (0, 1000000000), profit_range := (0, 1000000000) }

/-- A sidebar state with no currency selected: it filters everything out. -/
def spec_none : FilterSpec := { spec_all with currencies := [] }

/-- A sidebar state with a one-day date range. -/
def spec_date : FilterSpec := { spec_all with date_range := some (0, 0) }

/-- A sidebar state with the period slider shown. -/
def spec_period : FilterSpec := { spec_all with period_range := some (6, 24) }

/-- A sidebar state with the target-sum slider shown. -/
def spec_target : FilterSpec :=
  { spec_all with target_sum_range := some (0, 10000000) }

/-- Attempt outcomes: two transient failures, then success. -/
def outcomes_tts : ℕ → AttemptOutcome :=
  fun n => if n < 2 then .transient else .success []

/-- Attempt outcomes: every attempt fails transiently. -/
def outcomes_ttt : ℕ → AttemptOutcome := fun _ => .transient

/-- Attempt outcomes: the first attempt fails non-transiently. -/
def outcomes_f : ℕ → AttemptOutcome := fun _ => .fatal

/-! ## Helper lemmas -/

theorem retryFrom_success {o : ℕ → AttemptOutcome} {m a : ℕ} {df : List Record}
    (hm : a < m) (h : o a = .success df) :
    retryFrom o m a = (.ok df, a + 1) := by
  rw [retryFrom]
  simp [hm, h]

theorem retryFrom_fatal {o : ℕ → AttemptOutcome} {m a : ℕ}
    (hm : a < m) (h : o a = .fatal) :
    retryFrom o m a = (.fatalError, a + 1) := by
  rw [retryFrom]
  simp [hm, h]

theorem retryFrom_transient_continue {o : ℕ → AttemptOutcome} {m a : ℕ}
    (hm : a < m - 1) (h : o a = .transient) :
    retryFrom o m a = retryFrom o m (a + 1) := by
  rw [retryFrom]
  have hm2 : a < m := by omega
  simp [hm, hm2, h]

theorem retryFrom_transient_last {o : ℕ → AttemptOutcome} {m a : ℕ}
    (hm : a < m) (hlast : ¬a < m - 1) (h : o a = .transient) :
    retryFrom o m a = (.dataUnavailable, a + 1) := by
  rw [retryFrom]
  simp [hm, hlast, h]

theorem lookupRate_dictSet_ne (d : RateTable) (k k' : String) (v : ℚ)
    (h : k' ≠ k) : lookupRate (dictSet d k v) k' = lookupRate d k' := by
  induction d with
  | nil =>
    have hk : (k == k') = false := by
      simp [beq_eq_false_iff_ne, Ne.symm h]
    simp [dictSet, lookupRate, List.find?, hk]
  | cons p ps ih =>
    by_cases hp : p.1 == k
    · simp only [dictSet, hp, if_true, lookupRate, List.find?]
      have hk : (k == k') = false := by
        simp [beq_eq_false_iff_ne, Ne.symm h]
      have hp' : (p.1 == k') = false := by
        have : p.1 = k := by simpa using hp
        simp [this, beq_eq_false_iff_ne, Ne.symm h]
      simp [hk, hp']
    · simp only [dictSet, hp, if_false, lookupRate, List.find?]
      cases hpk : (p.1 == k') with
      | true => simp [hpk]
      | false => simpa [hpk, lookupRate] using ih

theorem parseValutes_rub (vs : List Valute) (rates out : RateTable)
    (hr : lookupRate rates "RUB" = some 1)
    (h : parseValutes vs rates = .ok out) :
    lookupRate out "RUB" = some 1 := by
  induction vs generalizing rates with
  | nil =>
    simp only [parseValutes, Except.ok.injEq] at h
    exact h ▸ hr
  | cons v vs ih =>
    simp only [parseValutes] at h
    by_cases hc : (v.char_code == "USD" || v.char_code == "EUR") = true
    · rw [if_pos hc] at h
      by_cases hn : v.nominal = 0
      · simp [hn] at h
      · rw [if_neg hn] at h
        refine ih _ ?_ h
        have hne : "RUB" ≠ v.char_code := by
          rcases Bool.or_eq_true_iff.mp hc with h1 | h1 <;>
            · have := eq_of_beq h1
              intro hcontra
              rw [← hcontra] at this
              exact absurd this (by decide)
        rw [lookupRate_dictSet_ne _ _ _ _ hne]
        exact hr
    · rw [if_neg hc] at h
      exact ih _ hr h

theorem sum_if_eq (l : List ℤ) (a : ℤ) :
    (l.map fun x => if a = x then (1 : ℕ) else 0).sum = l.count a := by
  induction l with
  | nil => rfl
  | cons b bs ih =>
    simp only [List.map_cons, List.sum_cons, List.count_cons, ih, beq_iff_eq]
    by_cases h : a = b <;> simp [h] <;> omega

theorem sum_if_eq_mul (l : List ℤ) (a : ℤ) (c : ℕ) :
    (l.map fun x => if a = x then c else 0).sum = l.count a * c := by
  induction l with
  | nil => simp
  | cons b bs ih =>
    simp only [List.map_cons, List.sum_cons, List.count_cons, ih, beq_iff_eq]
    by_cases h : a = b
    · simp [h, Nat.add_mul]
      omega
    · have h' : ¬b = a := fun hba => h hba.symm
      simp only [if_neg h, if_neg h', Nat.add_zero, Nat.zero_add]

theorem sum_map_add_nat {α : Type _} (l : List α) (f g : α → ℕ) :
    (l.map fun x => f x + g x).sum = (l.map f).sum + (l.map g).sum := by
  induction l with
  | nil => rfl
  | cons a as ih =>
    simp only [List.map_cons, List.sum_cons, ih]
    omega

theorem inner_indicator (ds : List ℤ) (x y h : ℤ) :
    (ds.map fun d => if (x == h && y == d) = true then (1 : ℕ) else 0).sum =
      if x = h then ds.count y else 0 := by
  induction ds with
  | nil => simp
  | cons d ds ih =>
    simp only [List.map_cons, List.sum_cons, ih, List.count_cons, beq_iff_eq]
    by_cases hx : x = h <;> by_cases hy : y = d <;>
      simp [hx, hy] <;> omega

theorem pivot_sum_aux (hs ds : List ℤ) (df : List Record)
    (hh : ∀ r ∈ df, hs.count (hour_only r) = 1)
    (hd : ∀ r ∈ df, ds.count (day_of_week r) = 1) :
    (hs.map fun h => (ds.map fun d => cell_count df h d).sum).sum = df.length := by
  induction df with
  | nil => simp [cell_count]
  | cons r rs ih =>
    have hr : hs.count (hour_only r) = 1 := hh r (List.mem_cons_self r rs)
    have dr : ds.count (day_of_week r) = 1 := hd r (List.mem_cons_self r rs)
    have step : ∀ h d, cell_count (r :: rs) h d =
        cell_count rs h d +
          (if (hour_only r == h && day_of_week r == d) = true then 1 else 0) := by
      intro h d
      simp [cell_count, List.countP_cons]
    have ihs := ih (fun x hx => hh x (List.mem_cons_of_mem r hx))
      (fun x hx => hd x (List.mem_cons_of_mem r hx))
    simp only [step, sum_map_add_nat, inner_indicator, sum_if_eq_mul, ihs, hr,
      dr, List.length_cons, mul_one]

theorem count_sorted_dedup (l : List ℤ) (a : ℤ) (h : a ∈ l) :
    ((l.dedup.insertionSort (· ≤ ·)).count a) = 1 := by
  rw [(List.perm_insertionSort (· ≤ ·) l.dedup).count_eq a, List.count_dedup]
  simp [h]

/-! ## The claimed properties -/

/-- C7: for every record sequence `R` and `FilterSpec` `S`, the filter is
idempotent: `apply (apply R S) S = apply R S`. -/
theorem apply_idempotent (R : List Record) (S : FilterSpec) :
    apply (apply R S) S = apply R S := by
  simp [apply, List.filter_filter]

/-- C2: the two calculation-kind-conditional predicates have the shape
`(kind != target_kind) OR (value in range)`, so a record whose kind
differs from the predicate's target kind satisfies the predicate
whatever its period or target-sum value, and is never excluded by it. -/
theorem kind_conditional_predicates (S : FilterSpec) (r : Record) :
    (r.calculation_type ≠ 1 → period_cond S r = true)
    ∧ (r.calculation_type ≠ 4 → target_sum_cond S r = true)
    ∧ (∀ lo hi, S.period_range = some (lo, hi) →
        period_cond S r = ((r.calculation_type != 1) || period_in_range lo hi r.period))
    ∧ (∀ lo hi, S.target_sum_range = some (lo, hi) →
        target_sum_cond S r =
          ((r.calculation_type != 4) || target_in_range lo hi r.target_sum)) := by
  refine ⟨?_, ?_, ?_, ?_⟩
  · intro h
    unfold period_cond
    cases hp : S.period_range with
    | none => rfl
    | some p => simp [h]
  · intro h
    unfold target_sum_cond
    cases hp : S.target_sum_range with
    | none => rfl
    | some p => simp [h]
  · intro lo hi hp
    simp [period_cond, hp]
  · intro lo hi hp
    simp [target_sum_cond, hp]

/-- Witness for C2: the "time to goal" sample record passes the period
predicate of a spec with an active period slider, and the "final amount"
sample record passes the target-sum predicate of a spec with an active
target-sum slider. -/
theorem kind_conditional_predicates_witness :
    period_cond spec_period rec1 = true ∧ target_sum_cond spec_target rec0 = true :=
  ⟨(kind_conditional_predicates spec_period rec1).1 (by decide),
   (kind_conditional_predicates spec_target rec0).2.1 (by decide)⟩

/-- C10: `convert_to_rub` on a currency code absent from the rate table
and different from the reference currency RUB applies the default factor
`1.0`, returning the amount unchanged rather than failing. -/
theorem convert_unknown_currency (amount : ℚ) (currency : String)
    (rates : RateTable) (h : lookupRate rates currency = none)
    (h2 : currency ≠ "RUB") :
    convert_to_rub amount currency rates = amount := by
  have hb : (currency == "RUB") = false := by
    simp [beq_eq_false_iff_ne, h2]
  have hfind : rates.find? (fun p => p.1 == currency) = none := by
    unfold lookupRate at h
    cases hf : rates.find? (fun p => p.1 == currency) with
    | none => rfl
    | some p => rw [hf] at h; simp at h
  unfold convert_to_rub dictGet
  rw [hb, hfind]
  simp

/-- Witness for C10: converting 42 units of an unknown currency yields 42. -/
theorem convert_unknown_currency_witness :
    convert_to_rub 42 "GBP" [("RUB", 1)] = 42 :=
  convert_unknown_currency 42 "GBP" [("RUB", 1)] (by decide) (by decide)

/-- C3: `execute_query_with_retry` returns the third attempt's result
after two transient failures, stops with the database error
(`DataUnavailable`) after three transient failures — exactly three
attempts, never more — and stops immediately, without retrying, on a
non-transient error. -/
theorem retry_behaviour (o : ℕ → AttemptOutcome) (df : List Record) :
    (o 0 = .transient → o 1 = .transient → o 2 = .success df →
      execute_query_with_retry o = (.ok df, 3))
    ∧ (o 0 = .transient → o 1 = .transient → o 2 = .transient →
      execute_query_with_retry o = (.dataUnavailable, 3))
    ∧ (o 0 = .fatal → execute_query_with_retry o = (.fatalError, 1)) := by
  unfold execute_query_with_retry
  refine ⟨?_, ?_, ?_⟩
  · intro h0 h1 h2
    rw [retryFrom_transient_continue (by omega) h0,
      retryFrom_transient_continue (by omega) h1,
      retryFrom_success (by omega) h2]
  · intro h0 h1 h2
    rw [retryFrom_transient_continue (by omega) h0,
      retryFrom_transient_continue (by omega) h1,
      retryFrom_transient_last (by omega) (by omega) h2]
  · intro h0
    rw [retryFrom_fatal (by omega) h0]

/-- Witness for C3: the three scenarios at concrete outcome sequences. -/
theorem retry_behaviour_witness :
    execute_query_with_retry outcomes_tts = (.ok [], 3)
    ∧ execute_query_with_retry outcomes_ttt = (.dataUnavailable, 3)
    ∧ execute_query_with_retry outcomes_f = (.fatalError, 1) :=
  ⟨(retry_behaviour outcomes_tts []).1 rfl rfl rfl,
   (retry_behaviour outcomes_ttt []).2.1 rfl rfl rfl,
   (retry_behaviour outcomes_f []).2.2 rfl⟩

/-- C1: the filter retains a record iff every predicate of the spec
evaluates true for it (the logical AND of all simple and conditional
predicates), so the output is no longer than the input and each of its
records satisfies every predicate; all numeric and date range predicates
are inclusive on both ends (closed intervals), and the date-range
predicate depends only on the date component of the creation
timestamp. -/
theorem filter_retains_iff_predicates (R : List Record) (S : FilterSpec) :
    ((apply R S).length ≤ R.length)
    ∧ (∀ r, r ∈ apply R S ↔ r ∈ R ∧ satisfies S r = true)
    ∧ (∀ r ∈ apply R S, satisfies S r = true)
    ∧ (∀ r, satisfies S r = true ↔
        (currency_cond S r = true ∧ calc_type_cond S r = true ∧
         initial_sum_cond S r = true ∧ interest_rate_cond S r = true ∧
         final_amount_cond S r = true ∧ profit_cond S r = true ∧
         date_cond S r = true ∧ period_cond S r = true ∧
         target_sum_cond S r = true ∧ reinvest_cond S r = true))
    ∧ (∀ r, initial_sum_cond S r = true ↔
        S.initial_sum_range.1 ≤ r.initial_sum ∧
          r.initial_sum ≤ S.initial_sum_range.2)
    ∧ (∀ r, interest_rate_cond S r = true ↔
        S.interest_rate_range.1 ≤ r.interest_rate ∧
          r.interest_rate ≤ S.interest_rate_range.2)
    ∧ (∀ r, final_amount_cond S r = true ↔
        S.final_amount_range.1 ≤ r.final_amount ∧
          r.final_amount ≤ S.final_amount_range.2)
    ∧ (∀ r, profit_cond S r = true ↔
        S.profit_range.1 ≤ r.total_profit ∧ r.total_profit ≤ S.profit_range.2)
    ∧ (∀ d0 d1 r, S.date_range = some (d0, d1) →
        (date_cond S r = true ↔ d0 ≤ date_only r ∧ date_only r ≤ d1))
    ∧ (∀ r r', date_only r = date_only r' → date_cond S r = date_cond S r') := by
  refine ⟨List.length_filter_le _ _, ?_, ?_, ?_, ?_, ?_, ?_, ?_, ?_, ?_⟩
  · intro r
    simp [apply, List.mem_filter]
  · intro r hr
    exact (List.mem_filter.mp hr).2
  · intro r
    simp [satisfies, Bool.and_eq_true, and_assoc]
  · intro r
    simp [initial_sum_cond, Bool.and_eq_true, decide_eq_true_iff]
  · intro r
    simp [interest_rate_cond, Bool.and_eq_true, decide_eq_true_iff]
  · intro r
    simp [final_amount_cond, Bool.and_eq_true, decide_eq_true_iff]
  · intro r
    simp [profit_cond, Bool.and_eq_true, decide_eq_true_iff]
  · intro d0 d1 r hdr
    simp [date_cond, hdr, Bool.and_eq_true, decide_eq_true_iff]
  · intro r r' he
    unfold date_cond
    cases hdr : S.date_range with
    | none => rfl
    | some p => rw [he]

/-- Witness for C1: the date predicate of the one-day sample spec on the
first sample record, by the closed-interval characterization. -/
theorem filter_retains_iff_predicates_witness :
    date_cond spec_date rec0 = true ↔
      (0 : ℤ) ≤ date_only rec0 ∧ date_only rec0 ≤ 0 :=
  (filter_retains_iff_predicates [] spec_date).2.2.2.2.2.2.2.2.1 0 0 rec0 rfl

/-- C4: the rate provider never fails: whatever the outcome of the
external fetch, the produced table maps RUB to 1.0, and on a failed
fetch it is exactly the fallback table
`{RUB: 1.0, USD: 95.0, EUR: 105.0}`. -/
theorem rate_provider_total (fetch : Except Unit (List Valute)) :
    lookupRate (get_cbr_rates fetch) "RUB" = some 1
    ∧ (∀ e : Unit, get_cbr_rates (.error e) = fallback_rates) := by
  constructor
  · cases fetch with
    | error e => rfl
    | ok vs =>
      cases hp : parseValutes vs [("RUB", 1)] with
      | error e =>
        simp only [get_cbr_rates, hp]
        rfl
      | ok rates =>
        have hg : get_cbr_rates (.ok vs) = rates := by
          simp [get_cbr_rates, hp]
        rw [hg]
        exact parseValutes_rub vs [("RUB", 1)] rates (by rfl) hp
  · intro e
    rfl

/-- C5: when the filtered result is empty, `main` stops at the
no-matching-records guard: it reports the empty result and never reaches
the aggregation sections, whatever the conversion settings. -/
theorem empty_filter_halts (df : List Record) (S : FilterSpec)
    (conv : Bool) (rv : Option RateTable) (h : apply df S = []) :
    (df ≠ [] → render df S conv rv = .noMatching)
    ∧ (∀ a, render df S conv rv ≠ .rendered a) := by
  unfold render
  by_cases hdf : df.isEmpty
  · simp [hdf]
    exact List.isEmpty_iff.mp hdf
  · simp [hdf, h]

/-- Witness for C5: a one-record table filtered by a spec selecting no
currency halts with the no-matching-records report. -/
theorem empty_filter_halts_witness :
    render [rec0] spec_none false none = .noMatching
    ∧ (∀ a, render [rec0] spec_none false none ≠ .rendered a) := by
  have h := empty_filter_halts [rec0] spec_none false none (by decide)
  exact ⟨h.1 (by decide), h.2⟩

/-- C6 (the code as written): with the currency checkbox enabled, the
conversion block of `main` evaluates the local variable `rates`, whose
only assignment (line 1045) runs after the block, so the render pass
dies with a `NameError` instead of rewriting the monetary fields. -/
theorem conversion_opt_in_crashes :
    main_render [rec0] spec_all true = .crashed := by
  decide

/-- C8: on an even-length multiset the median used by the aggregation
layer is the average of the two central values of the sorted sequence. -/
theorem median_even_is_middle_average (xs : List ℚ) (h : xs.length % 2 = 0)
    (hne : xs ≠ []) :
    median xs =
      ((xs.insertionSort (· ≤ ·)).getD (xs.length / 2 - 1) 0
        + (xs.insertionSort (· ≤ ·)).getD (xs.length / 2) 0) / 2 := by
  have hpos : 0 < xs.length := List.length_pos.mpr hne
  have hidx : (xs.length - 1) / 2 = xs.length / 2 - 1 := by omega
  simp only [median, hidx]

/-- Witness for C8: the median of `[10, 20, 30, 40]` is `25`. -/
theorem median_even_is_middle_average_witness :
    median [10, 20, 30, 40] = 25 := by
  have h := median_even_is_middle_average [10, 20, 30, 40] (by decide) (by decide)
  rw [h]
  have e1 : (([10, 20, 30, 40] : List ℚ).insertionSort (· ≤ ·)).getD
      (([10, 20, 30, 40] : List ℚ).length / 2 - 1) 0 = 20 := by decide
  have e2 : (([10, 20, 30, 40] : List ℚ).insertionSort (· ≤ ·)).getD
      (([10, 20, 30, 40] : List ℚ).length / 2) 0 = 30 := by decide
  rw [e1, e2]
  norm_num

/-- C9: the activity pivot cross-tabulates the record count per observed
(hour-of-day, day-of-week) pair, an absent combination counting zero,
and the values of all its cells sum to the number of filtered records. -/
theorem pivot_counts (df : List Record) :
    pivot_total df = df.length
    ∧ (∀ h d, cell_count df h d =
        (df.filter (fun r => hour_only r == h && day_of_week r == d)).length)
    ∧ (∀ h d, (∀ r ∈ df, ¬(hour_only r = h ∧ day_of_week r = d)) →
        cell_count df h d = 0) := by
  refine ⟨?_, ?_, ?_⟩
  · unfold pivot_total activity_pivot
    rw [List.map_map]
    refine pivot_sum_aux (pivot_hours df) (pivot_days df) df ?_ ?_
    · intro r hr
      exact count_sorted_dedup _ _ (List.mem_map_of_mem hour_only hr)
    · intro r hr
      exact count_sorted_dedup _ _ (List.mem_map_of_mem day_of_week hr)
  · intro h d
    exact List.countP_eq_length_filter _ _
  · intro h d habs
    rw [cell_count, List.countP_eq_zero]
    intro r hr
    simp only [Bool.and_eq_true, beq_iff_eq]
    exact fun hc => habs r hr ⟨hc.1, hc.2⟩

/-- Witness for C9: the two-record sample sums to two and an unoccupied
(hour, day) cell counts zero. -/
theorem pivot_counts_witness :
    pivot_total [rec0, rec1] = [rec0, rec1].length
    ∧ cell_count [rec0, rec1] 5 3 = 0 :=
  ⟨(pivot_counts [rec0, rec1]).1,
   (pivot_counts [rec0, rec1]).2.2 5 3 (by decide)⟩

end Dashboard
